import Mathlib

/-!
Shallow embedding of `src/oauth2cli/aio/oauth2.py` (the asynchronous OAuth2
token-acquisition client), covering the token pipeline, the device-flow
initiator, a single device-flow poll attempt and the polling loop.

Modelling conventions:
* Python dict fields that may be absent are `Option` fields; `d.get(k, v)`
  becomes `Option.getD`.
* `time.time()` values are passed in as explicit `Int` timestamps (the claims
  under study never depend on fractional seconds).
* Raised Python exceptions become the `Except PyError` monad.
* The HTTP transport is a parameter: each network round trip's response is an
  explicit argument, and functions also report how many HTTP posts they
  performed, so "no network activity" is expressible.
* The module `oauth2cli/aio/oauth2.py` references two global names it never
  imports or defines: `string_types` (line 53) and `warnings` (line 96).
  Python resolves such names at use time against the module's globals and the
  builtins; a miss raises `NameError`.  We model that resolution explicitly
  with `resolveName`, so the embedding keeps the intended continuation of each
  function visible while still computing the `NameError` the interpreter would
  raise.
-/

namespace OAuth2Cli

/-- Python exceptions that the embedded code can raise. -/
inductive PyError where
  | nameError (name : String)
  | valueError (msg : String)
  | keyError (key : String)
  | httpError (status : Nat)
  | parseError (msg : String)
deriving DecidableEq, Repr

/-- Global names actually bound at module level in `oauth2cli/aio/oauth2.py`:
the imports (`json`, `time`, `Mapping`, `AbstractBaseClient`) and the
module-level definitions (`_get_content`, `BaseClient`, `Client`). -/
def aioModuleGlobals : List String :=
  ["json", "time", "Mapping", "AbstractBaseClient", "_get_content",
   "BaseClient", "Client"]

/-- The Python builtins referenced by the module. `string_types` and
`warnings` are not builtins. -/
def pythonBuiltins : List String :=
  ["isinstance", "int", "str", "dict", "getattr", "callable", "range",
   "ValueError", "KeyError"]

/-- Python name resolution for a global name used inside this module:
found in the module's globals or in builtins, otherwise a `NameError`. -/
def resolveName (n : String) : Bool :=
  aioModuleGlobals.contains n || pythonBuiltins.contains n

/-- A JSON scalar that may be a number or a string (some identity providers
return the polling interval as text). -/
inductive JVal where
  | num (n : Int)
  | str (s : String)
deriving DecidableEq, Repr

/-- The value of a decimal digit character, `none` for a non-digit. -/
def digitVal (c : Char) : Option Nat :=
  if 48 ≤ c.toNat ∧ c.toNat ≤ 57 then some (c.toNat - 48) else none

/-- Accumulate a run of decimal digits; `none` when a non-digit appears. -/
def digitsToNat : List Char → Nat → Option Nat
  | [], acc => some acc
  | c :: cs, acc =>
    match digitVal c with
    | none => none
    | some d => digitsToNat cs (acc * 10 + d)

/-- Python `int(s)` on text: an optional sign followed by decimal digits
(Python would additionally strip surrounding whitespace, which no claim
depends on); anything else raises `ValueError`. -/
def parseDec (s : String) : Option Int :=
  match s.toList with
  | [] => none
  | '-' :: cs =>
    if cs.isEmpty then none
    else (digitsToNat cs 0).map fun n => -(n : Int)
  | '+' :: cs =>
    if cs.isEmpty then none
    else (digitsToNat cs 0).map fun n => (n : Int)
  | cs => (digitsToNat cs 0).map fun n => (n : Int)

/-- Python `int(x)` on a JSON scalar: numbers pass through, strings are
parsed, a non-numeric string raises `ValueError`. -/
def pyInt : JVal → Except PyError Int
  | .num n => .ok n
  | .str s =>
    match parseDec s with
    | some n => .ok n
    | none => .error (.valueError "invalid literal for int with base 10")

/-- Python truthiness of an optional string: `None` and the empty string are
falsy (`not self.configuration.get(DAE)`). -/
def pyTruthyStrOpt : Option String → Bool
  | none => false
  | some s => !(s == "")

/-- The normalized token-endpoint result: the parsed JSON object, reduced to
the fields the client inspects (`error`) plus a success payload field so that
distinct results stay distinct. -/
structure TokenResult where
  error : Option String
  access_token : Option String
deriving DecidableEq, Repr

/-- The device-flow descriptor (`flow` dict): the JSON object returned by the
device-authorization endpoint, plus the locally computed `expires_at` and the
client-maintained `latest_attempt_at`.  Absent keys are `none`. -/
structure Flow where
  device_code : Option String
  user_code : Option String
  verification_uri : Option String
  interval : Option Int
  expires_in : Option Int
  expires_at : Option Int
  latest_attempt_at : Option Int
deriving DecidableEq, Repr

/-- Client configuration: the fields of `self.configuration` (plus
`self.client_id`) that the embedded methods read. -/
structure Config where
  token_endpoint : String
  device_authorization_endpoint : Option String
  client_id : String
deriving DecidableEq, Repr

/-- An HTTP response as the code observes it: a status code
(`getattr(resp, "status_code", None) or resp.status`) and a body text. -/
structure HttpResponse where
  status_code : Nat
  text : String
deriving DecidableEq, Repr

/-- `BaseClient._obtain_token` (lines 17-38): one round trip through the
token pipeline.  The transport's response is the explicit argument `resp`;
`parse` stands for `self._parse_token_resposne`, which lives in the parent
class `oauth2cli/oauth2.py` outside the provided sources, so it is kept
abstract (its own failures are parse errors, not transport faults).
A status code of at least 500 raises (`resp.raise_for_status()`); any other
status hands the body to the interpreter. -/
def _obtain_token (parse : String → Except String TokenResult)
    (resp : HttpResponse) : Except PyError TokenResult :=
  if 500 ≤ resp.status_code then
    .error (.httpError resp.status_code)
  else
    (parse resp.text).mapError PyError.parseError

/-- `BaseClient.obtain_token_by_refresh_token` (lines 40-56).  Its first
statement, `assert isinstance(refresh_token, string_types)`, evaluates the
global name `string_types`, which the module neither imports nor defines, so
name resolution decides whether the body proceeds.  The pair's second
component counts HTTP posts performed. -/
def obtain_token_by_refresh_token (parse : String → Except String TokenResult)
    (resp : HttpResponse) (refresh_token : String) (scope : Option String)
    (data : List (String × String)) :
    Except PyError TokenResult × Nat :=
  if resolveName "string_types" then
    -- data.update(refresh_token=refresh_token, scope=scope); one round trip
    let _body := data ++ [("refresh_token", refresh_token),
                          ("scope", scope.getD "")]
    (_obtain_token parse resp, 1)
  else
    (.error (.nameError "string_types"), 0)

/-- The device-authorization endpoint's parsed JSON response
(`json.loads` of the body), as `initiate_device_flow` consumes it.
`interval` and `expires_in` may be numbers or text; a provider-supplied
`expires_at` field is representable to show it is never used. -/
structure DeviceAuthResponse where
  device_code : Option String
  user_code : Option String
  verification_uri : Option String
  interval : Option JVal
  expires_in : Option JVal
  expires_at : Option Int
deriving DecidableEq, Repr

/-- `BaseClient.initiate_device_flow` (lines 58-88).  Fails fast when the
device-authorization endpoint is missing or falsy; otherwise performs one
post (counted in the second component), then normalizes the parsed response:
`flow["interval"] = int(flow.get("interval", 5))`,
`flow["expires_in"] = int(flow.get("expires_in", 1800))`,
`flow["expires_at"] = time.time() + flow["expires_in"]` with `now` standing
for `time.time()` at that moment.  Any provider-supplied `expires_at` is
overwritten. -/
def initiate_device_flow (cfg : Config) (now : Int)
    (resp : DeviceAuthResponse) : Except PyError Flow × Nat :=
  if pyTruthyStrOpt cfg.device_authorization_endpoint = false then
    (.error (.valueError "You need to provide device authorization endpoint"), 0)
  else
    match pyInt (resp.interval.getD (.num 5)) with
    | .error e => (.error e, 1)
    | .ok i =>
      match pyInt (resp.expires_in.getD (.num 1800)) with
      | .error e => (.error e, 1)
      | .ok ei =>
        (.ok { device_code := resp.device_code
               user_code := resp.user_code
               verification_uri := resp.verification_uri
               interval := some i
               expires_in := some ei
               expires_at := some (now + ei)
               latest_attempt_at := none }, 1)

/-- `BaseClient._obtain_token_by_device_flow` (lines 90-108): one
non-blocking poll attempt.  `now` is `time.time()` at entry, `transport` is
the outcome of the inner `_obtain_token` round trip (the request body built
from `client_id` and `flow["device_code"]` does not influence the modelled
state, but the `flow["device_code"]` lookup can raise `KeyError` before the
request).  The premature-attempt branch calls `warnings.warn`, and `warnings`
is resolved as a global name; on success the attempt mutates `interval` (only
on `slow_down`) and then `latest_attempt_at`, and returns the result.
The descriptor mutations (lines 104-107) are factored out as
`deviceFlowStep`: `interval` grows by 5 exactly when the result's error code
is `slow_down`, then `latest_attempt_at` is set to the attempt's entry
time. -/
def deviceFlowStep (now : Int) (flow : Flow) (result : TokenResult) : Flow :=
  let flow1 :=
    if result.error = some "slow_down" then
      { flow with interval := some (flow.interval.getD 5 + 5) }
    else flow
  { flow1 with latest_attempt_at := some now }

def _obtain_token_by_device_flow (now : Int) (flow : Flow)
    (transport : Except PyError TokenResult) :
    Except PyError (TokenResult × Flow) :=
  if flow.latest_attempt_at.getD 0 + flow.interval.getD 5 - 1 > now ∧
      resolveName "warnings" = false then
    .error (.nameError "warnings")
  else
    match flow.device_code with
    | none => .error (.keyError "device_code")
    | some _ =>
      match transport with
      | .error e => .error e
      | .ok result => .ok (result, deviceFlowStep now flow result)

/-- Modelled from the spec: `DEVICE_FLOW_RETRIABLE_ERRORS` is a constant of
the parent class `AbstractBaseClient` in `oauth2cli/oauth2.py`, which is not
among the provided sources.  The spec fixes the retriable set as
`authorization_pending` and `slow_down`. -/
def DEVICE_FLOW_RETRIABLE_ERRORS : List String :=
  ["authorization_pending", "slow_down"]

/-- `result.get("error") in retriable`: a result with no `error` key is never
retriable. -/
def resultRetriable (retriable : List String) (result : TokenResult) : Bool :=
  match result.error with
  | none => false
  | some e => retriable.contains e

/-- Observable effort counters of a polling session: poll attempts started,
`sleeper(1)` invocations, and `exit_condition(flow)` evaluations. -/
structure PollStats where
  attempts : Nat
  sleeps : Nat
  checks : Nat
deriving DecidableEq, Repr

/-- Outcome of running the polling loop against a finite list of prepared
attempt inputs: a `return result`, a raised exception, or `running` when the
prepared inputs are exhausted with the loop still going. -/
inductive PollOutcome where
  | returned (result : TokenResult) (flow : Flow) (stats : PollStats)
  | raised (e : PyError) (flow : Flow) (stats : PollStats)
  | running (flow : Flow) (stats : PollStats)
deriving DecidableEq, Repr

/-- The descriptor carried by a `PollOutcome`. -/
def PollOutcome.flowOf : PollOutcome → Flow
  | .returned _ f _ => f
  | .raised _ f _ => f
  | .running f _ => f

/-- The effort counters carried by a `PollOutcome`. -/
def PollOutcome.statsOf : PollOutcome → PollStats
  | .returned _ _ s => s
  | .raised _ _ s => s
  | .running _ s => s

/-- The wait phase of the loop body (lines 150-153):
`for i in range(n): if exit_condition(flow): return result; await sleeper(1)`.
The exit condition is a predicate on the descriptor that may also vary with
time; it is indexed by the running count of evaluations (`st.checks`), which
models a closure over ambient wall-clock time.  Returns `some result` when
the exit condition fired, `none` when the interval was waited out, together
with the updated counters. -/
def waitPhase (ec : Nat → Flow → Bool) (flow : Flow) (result : TokenResult) :
    Nat → PollStats → Option TokenResult × PollStats
  | 0, st => (none, st)
  | n + 1, st =>
    if ec st.checks flow then
      (some result, { st with checks := st.checks + 1 })
    else
      waitPhase ec flow result n
        { st with checks := st.checks + 1, sleeps := st.sleeps + 1 }

/-- The `while True` loop of `obtain_token_by_device_flow` (lines 146-153),
driven by a finite list of prepared attempt inputs, each a `time.time()`
value paired with the transport outcome of that attempt's round trip. -/
def pollLoop (retriable : List String) (ec : Nat → Flow → Bool) :
    List (Int × Except PyError TokenResult) → Flow → PollStats → PollOutcome
  | [], flow, st => .running flow st
  | (now, tr) :: rest, flow, st =>
    match _obtain_token_by_device_flow now flow tr with
    | .error e => .raised e flow { st with attempts := st.attempts + 1 }
    | .ok (result, flow') =>
      let st1 : PollStats := { st with attempts := st.attempts + 1 }
      if resultRetriable retriable result then
        match waitPhase ec flow' result (flow'.interval.getD 5).toNat st1 with
        | (some r, st2) => .returned r flow' st2
        | (none, st2) => pollLoop retriable ec rest flow' st2
      else
        .returned result flow' st1

/-- `BaseClient.obtain_token_by_device_flow` (lines 110-153): raises a
`ValueError` before any attempt when no sleeper is supplied, otherwise runs
the polling loop. -/
def obtain_token_by_device_flow (sleeperProvided : Bool)
    (retriable : List String) (ec : Nat → Flow → Bool)
    (attempts : List (Int × Except PyError TokenResult)) (flow : Flow) :
    PollOutcome :=
  if sleeperProvided then
    pollLoop retriable ec attempts flow ⟨0, 0, 0⟩
  else
    .raised (.valueError "You need to provide something like asyncio.sleep")
      flow ⟨0, 0, 0⟩

/-- A polling session viewed as its sequence of completed poll attempts: the
descriptor folded through `_obtain_token_by_device_flow` over the prepared
attempt inputs, aborting at the first raised exception. -/
def runAttempts : List (Int × Except PyError TokenResult) → Flow →
    Except PyError Flow
  | [], flow => .ok flow
  | (now, tr) :: rest, flow =>
    match _obtain_token_by_device_flow now flow tr with
    | .error e => .error e
    | .ok (_, flow') => runAttempts rest flow'

/-- How many of the prepared attempt inputs carry a transport response whose
error code is `slow_down`. -/
def countSlowDown (l : List (Int × Except PyError TokenResult)) : Nat :=
  (l.filter fun a =>
    match a.2 with
    | .ok r => r.error == some "slow_down"
    | .error _ => false).length

/-! ### Helper lemmas -/

theorem deviceFlowStep_interval (now : Int) (flow : Flow)
    (result : TokenResult) :
    (deviceFlowStep now flow result).interval =
      if result.error = some "slow_down" then some (flow.interval.getD 5 + 5)
      else flow.interval := by
  unfold deviceFlowStep
  split <;> rfl

theorem deviceFlowStep_frame (now : Int) (flow : Flow) (result : TokenResult) :
    (deviceFlowStep now flow result).device_code = flow.device_code ∧
    (deviceFlowStep now flow result).user_code = flow.user_code ∧
    (deviceFlowStep now flow result).verification_uri = flow.verification_uri ∧
    (deviceFlowStep now flow result).expires_in = flow.expires_in ∧
    (deviceFlowStep now flow result).expires_at = flow.expires_at ∧
    (deviceFlowStep now flow result).latest_attempt_at = some now := by
  unfold deviceFlowStep
  split <;> exact ⟨rfl, rfl, rfl, rfl, rfl, rfl⟩

/-- Inversion of a successful poll attempt: the transport produced the
result, and the updated descriptor is `deviceFlowStep` of the old one. -/
theorem attempt_ok_elim {now : Int} {flow : Flow}
    {tr : Except PyError TokenResult} {result : TokenResult} {flow' : Flow}
    (h : _obtain_token_by_device_flow now flow tr = .ok (result, flow')) :
    tr = .ok result ∧ flow' = deviceFlowStep now flow result := by
  unfold _obtain_token_by_device_flow at h
  split at h
  · exact absurd h (by simp)
  · split at h
    · exact absurd h (by simp)
    · match tr, h with
      | .ok r, h =>
        simp only [Except.ok.injEq, Prod.mk.injEq] at h
        obtain ⟨h1, h2⟩ := h
        subst h1
        exact ⟨rfl, h2.symm⟩

/-- When no exit-condition evaluation during the wait fires, the whole
interval is waited out: one sleep and one check per round, no result. -/
theorem waitPhase_all_false (ec : Nat → Flow → Bool) (flow : Flow)
    (result : TokenResult) :
    ∀ (n : Nat) (st : PollStats),
      (∀ j, j < n → ec (st.checks + j) flow = false) →
      waitPhase ec flow result n st =
        (none, { st with sleeps := st.sleeps + n, checks := st.checks + n }) := by
  intro n
  induction n with
  | zero => intro st _; simp [waitPhase]
  | succ m ih =>
    intro st h
    have h0 : ec st.checks flow = false := by
      have := h 0 (Nat.succ_pos m)
      simpa using this
    unfold waitPhase
    rw [h0]
    simp only [Bool.false_eq_true, if_false]
    rw [ih _ (fun j hj => by
      have h2 := h (j + 1) (by omega)
      have e : st.checks + 1 + j = st.checks + (j + 1) := by omega
      simpa [e] using h2)]
    have e1 : st.sleeps + 1 + m = st.sleeps + (m + 1) := by omega
    have e2 : st.checks + 1 + m = st.checks + (m + 1) := by omega
    simp [e1, e2]

/-- When the exit condition first fires at the `k`-th evaluation of the wait
(`k` strictly below the round count), the wait returns the pending result
after exactly `k` sleeps and `k + 1` checks. -/
theorem waitPhase_exit (ec : Nat → Flow → Bool) (flow : Flow)
    (result : TokenResult) :
    ∀ (k n : Nat) (st : PollStats), k < n →
      (∀ j, j < k → ec (st.checks + j) flow = false) →
      ec (st.checks + k) flow = true →
      waitPhase ec flow result n st =
        (some result,
         { st with sleeps := st.sleeps + k, checks := st.checks + k + 1 }) := by
  intro k
  induction k with
  | zero =>
    intro n st hlt _ ht
    match n, hlt with
    | m + 1, _ =>
      have ht' : ec st.checks flow = true := by simpa using ht
      unfold waitPhase
      rw [ht']
      simp
  | succ p ih =>
    intro n st hlt hb ht
    match n, hlt with
    | m + 1, hlt =>
      have h0 : ec st.checks flow = false := by
        have := hb 0 (Nat.succ_pos p)
        simpa using this
      unfold waitPhase
      rw [h0]
      simp only [Bool.false_eq_true, if_false]
      rw [ih m _ (by omega)
        (fun j hj => by
          have h2 := hb (j + 1) (by omega)
          have e : st.checks + 1 + j = st.checks + (j + 1) := by omega
          simpa [e] using h2)
        (by
          have e : st.checks + 1 + p = st.checks + (p + 1) := by omega
          simpa [e] using ht)]
      have e1 : st.sleeps + 1 + p = st.sleeps + (p + 1) := by omega
      have e2 : st.checks + 1 + (p + 1) = st.checks + (p + 1) + 1 := by omega
      have e3 : st.checks + 1 + p = st.checks + (p + 1) := by omega
      simp [e1, e2, e3]

/-- One unfolding of the polling loop when the head attempt completes. -/
theorem pollLoop_cons_ok (retriable : List String) (ec : Nat → Flow → Bool)
    (now : Int) (tr : Except PyError TokenResult)
    (rest : List (Int × Except PyError TokenResult)) (flow : Flow)
    (st : PollStats) (result : TokenResult) (flow' : Flow)
    (hat : _obtain_token_by_device_flow now flow tr = .ok (result, flow')) :
    pollLoop retriable ec ((now, tr) :: rest) flow st =
      if resultRetriable retriable result then
        match waitPhase ec flow' result (flow'.interval.getD 5).toNat
            { st with attempts := st.attempts + 1 } with
        | (some r, st2) => .returned r flow' st2
        | (none, st2) => pollLoop retriable ec rest flow' st2
      else
        .returned result flow' { st with attempts := st.attempts + 1 } := by
  simp only [pollLoop, hat]

/-- A non-retriable head result returns immediately: no sleeps, no checks,
no further attempts. -/
theorem pollLoop_head_terminal (retriable : List String)
    (ec : Nat → Flow → Bool) (now : Int) (tr : Except PyError TokenResult)
    (rest : List (Int × Except PyError TokenResult)) (flow : Flow)
    (st : PollStats) (result : TokenResult) (flow' : Flow)
    (hat : _obtain_token_by_device_flow now flow tr = .ok (result, flow'))
    (hret : resultRetriable retriable result = false) :
    pollLoop retriable ec ((now, tr) :: rest) flow st =
      .returned result flow' { st with attempts := st.attempts + 1 } := by
  rw [pollLoop_cons_ok retriable ec now tr rest flow st result flow' hat, hret]
  simp

/-- A retriable head result whose wait is cut short by the exit condition at
its `k`-th evaluation returns the head result after `k` sleeps. -/
theorem pollLoop_head_exit (retriable : List String)
    (ec : Nat → Flow → Bool) (now : Int) (tr : Except PyError TokenResult)
    (rest : List (Int × Except PyError TokenResult)) (flow : Flow)
    (st : PollStats) (result : TokenResult) (flow' : Flow) (k : Nat)
    (hat : _obtain_token_by_device_flow now flow tr = .ok (result, flow'))
    (hret : resultRetriable retriable result = true)
    (hk : k < (flow'.interval.getD 5).toNat)
    (hb : ∀ j, j < k → ec (st.checks + j) flow' = false)
    (ht : ec (st.checks + k) flow' = true) :
    pollLoop retriable ec ((now, tr) :: rest) flow st =
      .returned result flow'
        ⟨st.attempts + 1, st.sleeps + k, st.checks + k + 1⟩ := by
  rw [pollLoop_cons_ok retriable ec now tr rest flow st result flow' hat, hret]
  rw [waitPhase_exit ec flow' result k ((flow'.interval.getD 5).toNat)
    { st with attempts := st.attempts + 1 } hk hb ht]
  simp

/-- A retriable head result whose wait is never interrupted waits out the
whole interval (one sleep and one check per second) and proceeds to the next
attempt. -/
theorem pollLoop_head_wait (retriable : List String)
    (ec : Nat → Flow → Bool) (now : Int) (tr : Except PyError TokenResult)
    (rest : List (Int × Except PyError TokenResult)) (flow : Flow)
    (st : PollStats) (result : TokenResult) (flow' : Flow)
    (hat : _obtain_token_by_device_flow now flow tr = .ok (result, flow'))
    (hret : resultRetriable retriable result = true)
    (hall : ∀ j, j < (flow'.interval.getD 5).toNat →
      ec (st.checks + j) flow' = false) :
    pollLoop retriable ec ((now, tr) :: rest) flow st =
      pollLoop retriable ec rest flow'
        ⟨st.attempts + 1, st.sleeps + (flow'.interval.getD 5).toNat,
         st.checks + (flow'.interval.getD 5).toNat⟩ := by
  rw [pollLoop_cons_ok retriable ec now tr rest flow st result flow' hat, hret]
  rw [waitPhase_all_false ec flow' result ((flow'.interval.getD 5).toNat)
    { st with attempts := st.attempts + 1 } hall]
  simp

/-- Effective interval (`flow.get("interval", 5)`) after one completed poll
attempt: unchanged except for the 5-second slowdown backoff. -/
theorem attempt_ok_interval {now : Int} {flow : Flow}
    {tr : Except PyError TokenResult} {result : TokenResult} {flow' : Flow}
    (h : _obtain_token_by_device_flow now flow tr = .ok (result, flow')) :
    flow'.interval.getD 5 =
      flow.interval.getD 5 +
        (if result.error = some "slow_down" then 5 else 0) := by
  obtain ⟨-, h2⟩ := attempt_ok_elim h
  subst h2
  rw [deviceFlowStep_interval]
  split <;> simp

/-- Equality of the descriptor fields that the poller never writes to. -/
def sameStatic (f g : Flow) : Prop :=
  f.device_code = g.device_code ∧ f.user_code = g.user_code ∧
  f.verification_uri = g.verification_uri ∧ f.expires_in = g.expires_in ∧
  f.expires_at = g.expires_at

theorem sameStatic_refl (f : Flow) : sameStatic f f :=
  ⟨rfl, rfl, rfl, rfl, rfl⟩

theorem sameStatic_trans {f g h : Flow} (h1 : sameStatic f g)
    (h2 : sameStatic g h) : sameStatic f h :=
  ⟨h1.1.trans h2.1, h1.2.1.trans h2.2.1, h1.2.2.1.trans h2.2.2.1,
   h1.2.2.2.1.trans h2.2.2.2.1, h1.2.2.2.2.trans h2.2.2.2.2⟩

/-- A completed poll attempt leaves every descriptor field other than
`interval` and `latest_attempt_at` unchanged. -/
theorem attempt_ok_sameStatic {now : Int} {flow : Flow}
    {tr : Except PyError TokenResult} {result : TokenResult} {flow' : Flow}
    (h : _obtain_token_by_device_flow now flow tr = .ok (result, flow')) :
    sameStatic flow' flow := by
  obtain ⟨-, h2⟩ := attempt_ok_elim h
  subst h2
  have hf := deviceFlowStep_frame now flow result
  exact ⟨hf.1, hf.2.1, hf.2.2.1, hf.2.2.2.1, hf.2.2.2.2.1⟩

/-- The polling loop never writes to any descriptor field other than
`interval` and `latest_attempt_at`, whatever its outcome. -/
theorem pollLoop_sameStatic (retriable : List String)
    (ec : Nat → Flow → Bool) :
    ∀ (attempts : List (Int × Except PyError TokenResult)) (flow : Flow)
      (st : PollStats),
      sameStatic (pollLoop retriable ec attempts flow st).flowOf flow := by
  intro attempts
  induction attempts with
  | nil => intro flow st; exact sameStatic_refl flow
  | cons a rest ih =>
    intro flow st
    obtain ⟨now, tr⟩ := a
    cases hat : _obtain_token_by_device_flow now flow tr with
    | error e =>
      simp only [pollLoop, hat]
      exact sameStatic_refl flow
    | ok p =>
      obtain ⟨result, fmid⟩ := p
      have hframe := attempt_ok_sameStatic hat
      rw [pollLoop_cons_ok retriable ec now tr rest flow st result fmid hat]
      split
      · cases hw : waitPhase ec fmid result (fmid.interval.getD 5).toNat
            { st with attempts := st.attempts + 1 } with
        | mk o st2 =>
          cases o with
          | some r => simpa [PollOutcome.flowOf] using hframe
          | none => exact sameStatic_trans (ih fmid st2) hframe
      · simpa [PollOutcome.flowOf] using hframe

/-- Head reduction of `countSlowDown`. -/
theorem countSlowDown_cons (a : Int × Except PyError TokenResult)
    (l : List (Int × Except PyError TokenResult)) :
    countSlowDown (a :: l) =
      (if (match a.2 with
           | .ok r => r.error == some "slow_down"
           | .error _ => false) = true then 1 else 0) + countSlowDown l := by
  unfold countSlowDown
  rw [List.filter_cons]
  split <;> simp [Nat.add_comm]

/-- Folding a list of completed attempts accumulates exactly 5 seconds of
interval per `slow_down` transport response. -/
theorem runAttempts_interval :
    ∀ (l : List (Int × Except PyError TokenResult)) (flow flow' : Flow),
      runAttempts l flow = .ok flow' →
      flow'.interval.getD 5 =
        flow.interval.getD 5 + 5 * (countSlowDown l : Int) := by
  intro l
  induction l with
  | nil =>
    intro flow flow' h
    simp only [runAttempts, Except.ok.injEq] at h
    subst h
    simp [countSlowDown]
  | cons a rest ih =>
    intro flow flow' h
    obtain ⟨now, tr⟩ := a
    unfold runAttempts at h
    cases hat : _obtain_token_by_device_flow now flow tr with
    | error e => rw [hat] at h; exact absurd h (by simp)
    | ok p =>
      rw [hat] at h
      obtain ⟨result, fmid⟩ := p
      have hstep := attempt_ok_interval hat
      have htr : tr = .ok result := (attempt_ok_elim hat).1
      have hrec := ih fmid flow' h
      subst htr
      rw [hrec, hstep, countSlowDown_cons]
      by_cases hsd : result.error = some "slow_down"
      · simp only [hsd, if_pos rfl]
        simp
        ring
      · have : (result.error == some "slow_down") = false := by
          simpa using hsd
        simp only [this]
        simp [hsd]

/-- Inversion of a successful `initiate_device_flow`: the normalized
descriptor, with both scalars converted through `int(...)`. -/
theorem initiate_ok_elim {cfg : Config} {now : Int}
    {resp : DeviceAuthResponse} {flow : Flow}
    (h : (initiate_device_flow cfg now resp).1 = .ok flow) :
    ∃ i ei, pyInt (resp.interval.getD (.num 5)) = .ok i ∧
      pyInt (resp.expires_in.getD (.num 1800)) = .ok ei ∧
      flow = { device_code := resp.device_code, user_code := resp.user_code,
               verification_uri := resp.verification_uri, interval := some i,
               expires_in := some ei, expires_at := some (now + ei),
               latest_attempt_at := none } := by
  unfold initiate_device_flow at h
  split at h
  · exact absurd h (by simp)
  · cases hpi : pyInt (resp.interval.getD (.num 5)) with
    | error e => rw [hpi] at h; exact absurd h (by simp)
    | ok i =>
      rw [hpi] at h
      cases hpe : pyInt (resp.expires_in.getD (.num 1800)) with
      | error e => rw [hpe] at h; exact absurd h (by simp)
      | ok ei =>
        rw [hpe] at h
        simp only [Except.ok.injEq] at h
        exact ⟨i, ei, rfl, rfl, h.symm⟩

/-! ### Concrete values used by witnesses and counterexamples -/

def pendingResult : TokenResult := ⟨some "authorization_pending", none⟩

def slowDownResult : TokenResult := ⟨some "slow_down", none⟩

def successResult : TokenResult := ⟨none, some "token-abc"⟩

/-- A well-formed descriptor as `initiate_device_flow` would create it at
time 500 from a response that omits `interval` and `expires_in`. -/
def wFlow : Flow :=
  ⟨some "dc", some "uc", some "https://example.net/verify", some 5,
   some 1800, some 2300, none⟩

/-- `wFlow` after one completed attempt at time 1000 whose result was
`authorization_pending`. -/
def wFlowPend : Flow :=
  ⟨some "dc", some "uc", some "https://example.net/verify", some 5,
   some 1800, some 2300, some 1000⟩

/-- `wFlow` after completed attempts at times 1000 and 2000 that both
returned `slow_down`. -/
def wFlowSlow2 : Flow :=
  ⟨some "dc", some "uc", some "https://example.net/verify", some 15,
   some 1800, some 2300, some 2000⟩

/-- A descriptor whose `interval` field is zero. -/
def zeroIntervalFlow : Flow :=
  ⟨some "dc", some "uc", some "https://example.net/verify", some 0,
   some 1800, some 2300, none⟩

/-- `zeroIntervalFlow` after one completed pending attempt at time 1000. -/
def zeroIntervalFlowPend : Flow :=
  ⟨some "dc", some "uc", some "https://example.net/verify", some 0,
   some 1800, some 2300, some 1000⟩

/-- `wFlow` after one completed attempt at time 1000 whose result was
`slow_down`. -/
def wFlowSlow : Flow :=
  ⟨some "dc", some "uc", some "https://example.net/verify", some 10,
   some 1800, some 2300, some 1000⟩

/-- A descriptor on which a poll attempt at time 100 is premature:
`latest_attempt_at + interval - 1 = 104 > 100`. -/
def prematureFlow : Flow :=
  ⟨some "dc", some "uc", some "https://example.net/verify", some 5,
   some 1800, some 1900, some 100⟩

/-- A configuration with a device-authorization endpoint. -/
def deviceConfig : Config :=
  ⟨"https://example.net/token", some "https://example.net/devicecode",
   "client-1"⟩

/-- A configuration without a device-authorization endpoint. -/
def noDaeConfig : Config := ⟨"https://example.net/token", none, "client-1"⟩

/-- A device-authorization response giving `interval` as the text "7". -/
def textIntervalResponse : DeviceAuthResponse :=
  ⟨some "dc", some "uc", some "https://example.net/verify",
   some (.str "7"), some (.num 900), none⟩

/-- A device-authorization response that omits `interval` and `expires_in`
(and supplies its own `expires_at`, which the client must ignore). -/
def omittedResponse : DeviceAuthResponse :=
  ⟨some "dc", some "uc", some "https://example.net/verify", none, none,
   some 99⟩

/-- A deterministic stand-in for the response interpreter. -/
def wParse : String → Except String TokenResult := fun s => .ok ⟨none, some s⟩

/-! ### Claims -/

/-- Claim C1: one iteration of the polling loop performs one poll attempt
and (a) returns the result immediately when its error is not in the
retriable set, with no sleeps and no exit-condition checks; (b) otherwise
checks the exit condition before every 1-second sleeper increment, and when
the condition first holds at the `k`-th check (in particular before any
increment, `k = 0`) returns the last obtained result after exactly `k`
sleeps without performing another attempt; (c) when no check fires it waits
out the whole current interval, one sleep per second, and only then starts
the next attempt. -/
theorem C1_poll_loop_iteration (ec : Nat → Flow → Bool) (now : Int)
    (flow flow' : Flow) (tr : Except PyError TokenResult)
    (result : TokenResult) (rest : List (Int × Except PyError TokenResult))
    (st : PollStats)
    (hat : _obtain_token_by_device_flow now flow tr = .ok (result, flow')) :
    (resultRetriable DEVICE_FLOW_RETRIABLE_ERRORS result = false →
      pollLoop DEVICE_FLOW_RETRIABLE_ERRORS ec ((now, tr) :: rest) flow st =
        .returned result flow' { st with attempts := st.attempts + 1 }) ∧
    (resultRetriable DEVICE_FLOW_RETRIABLE_ERRORS result = true →
      (∀ k, k < (flow'.interval.getD 5).toNat →
        (∀ j, j < k → ec (st.checks + j) flow' = false) →
        ec (st.checks + k) flow' = true →
        pollLoop DEVICE_FLOW_RETRIABLE_ERRORS ec ((now, tr) :: rest) flow st =
          .returned result flow'
            ⟨st.attempts + 1, st.sleeps + k, st.checks + k + 1⟩) ∧
      ((∀ j, j < (flow'.interval.getD 5).toNat →
          ec (st.checks + j) flow' = false) →
        pollLoop DEVICE_FLOW_RETRIABLE_ERRORS ec ((now, tr) :: rest) flow st =
          pollLoop DEVICE_FLOW_RETRIABLE_ERRORS ec rest flow'
            ⟨st.attempts + 1, st.sleeps + (flow'.interval.getD 5).toNat,
             st.checks + (flow'.interval.getD 5).toNat⟩)) := by
  refine ⟨fun hret => ?_, fun hret => ⟨fun k hk hb ht => ?_, fun hall => ?_⟩⟩
  · exact pollLoop_head_terminal _ ec now tr rest flow st result flow' hat hret
  · exact pollLoop_head_exit _ ec now tr rest flow st result flow' k hat hret
      hk hb ht
  · exact pollLoop_head_wait _ ec now tr rest flow st result flow' hat hret
      hall

theorem C1_poll_loop_iteration_witness :
    pollLoop DEVICE_FLOW_RETRIABLE_ERRORS (fun _ _ => true)
        [(1000, .ok pendingResult)] wFlow ⟨0, 0, 0⟩ =
      .returned pendingResult wFlowPend ⟨1, 0, 1⟩ :=
  (((C1_poll_loop_iteration (fun _ _ => true) 1000 wFlow wFlowPend
      (.ok pendingResult) pendingResult [] ⟨0, 0, 0⟩ (by rfl)).2
    (by decide)).1) 0 (by decide) (fun j hj => absurd hj (Nat.not_lt_zero j))
    rfl

/-- Claim C2: within a polling session the effective `interval` is
monotonically non-decreasing; the only per-attempt mutation of `interval` is
an increase of exactly 5 on a `slow_down` result; and after a completed
session in which the transport returned `slow_down` N times the interval
equals its initial value plus 5×N. -/
theorem C2_interval_monotone_backoff
    (l : List (Int × Except PyError TokenResult)) (flow flow' : Flow)
    (h : runAttempts l flow = .ok flow') :
    flow'.interval.getD 5 =
      flow.interval.getD 5 + 5 * (countSlowDown l : Int) ∧
    flow.interval.getD 5 ≤ flow'.interval.getD 5 ∧
    (∀ (now : Int) (f f' : Flow) (tr : Except PyError TokenResult)
        (r : TokenResult),
      _obtain_token_by_device_flow now f tr = .ok (r, f') →
      f'.interval = if r.error = some "slow_down"
        then some (f.interval.getD 5 + 5) else f.interval) := by
  refine ⟨runAttempts_interval l flow flow' h, ?_, ?_⟩
  · rw [runAttempts_interval l flow flow' h]
    omega
  · intro now f f' tr r hat
    obtain ⟨-, h2⟩ := attempt_ok_elim hat
    subst h2
    exact deviceFlowStep_interval now f r

theorem C2_interval_monotone_backoff_witness :
    wFlowSlow2.interval.getD 5 =
      wFlow.interval.getD 5 +
        5 * (countSlowDown [(1000, .ok slowDownResult),
                            (2000, .ok slowDownResult)] : Int) :=
  (C2_interval_monotone_backoff
    [(1000, .ok slowDownResult), (2000, .ok slowDownResult)]
    wFlow wFlowSlow2 (by rfl)).1

/-- Claim C3 as stated is false: with an always-true exit condition but a
descriptor whose `interval` is 0, a retriable result makes the loop start a
second attempt (the `for` over `range(0)` never evaluates the exit
condition), so the loop does not perform exactly one attempt.  Here two
attempts are performed. -/
theorem C3_counterexample :
    (obtain_token_by_device_flow true DEVICE_FLOW_RETRIABLE_ERRORS
        (fun _ _ => true)
        [(1000, .ok pendingResult), (1002, .ok pendingResult)]
        zeroIntervalFlow).statsOf.attempts = 2 := by
  decide

/-- Claim C3 (amended): provided the descriptor's effective interval is at
least 1 second — which every descriptor produced by `initiate_device_flow`
from an interval of at least 1 satisfies — an always-true exit condition
makes the loop perform exactly one poll attempt, invoke the sleeper zero
times, and return that attempt's raw result, whatever it is. -/
theorem C3_always_true_exit_single_attempt (now : Int) (flow flow' : Flow)
    (tr : Except PyError TokenResult) (result : TokenResult)
    (rest : List (Int × Except PyError TokenResult))
    (hpos : 1 ≤ flow.interval.getD 5)
    (hat : _obtain_token_by_device_flow now flow tr = .ok (result, flow')) :
    obtain_token_by_device_flow true DEVICE_FLOW_RETRIABLE_ERRORS
        (fun _ _ => true) ((now, tr) :: rest) flow =
      .returned result flow'
        ⟨1, 0,
         if resultRetriable DEVICE_FLOW_RETRIABLE_ERRORS result then 1
         else 0⟩ := by
  have hint : 1 ≤ flow'.interval.getD 5 := by
    rw [attempt_ok_interval hat]
    split <;> omega
  unfold obtain_token_by_device_flow
  simp only [if_true]
  by_cases hret : resultRetriable DEVICE_FLOW_RETRIABLE_ERRORS result = true
  · rw [pollLoop_head_exit _ _ now tr rest flow ⟨0, 0, 0⟩ result flow' 0 hat
      hret (by omega) (fun j hj => absurd hj (Nat.not_lt_zero j)) rfl]
    simp [hret]
  · have hret' : resultRetriable DEVICE_FLOW_RETRIABLE_ERRORS result =
        false := by
      simpa using hret
    rw [pollLoop_head_terminal _ _ now tr rest flow ⟨0, 0, 0⟩ result flow' hat
      hret']
    simp [hret']

theorem C3_always_true_exit_single_attempt_witness :
    obtain_token_by_device_flow true DEVICE_FLOW_RETRIABLE_ERRORS
        (fun _ _ => true) [(1000, .ok pendingResult)] wFlow =
      .returned pendingResult wFlowPend
        ⟨1, 0,
         if resultRetriable DEVICE_FLOW_RETRIABLE_ERRORS pendingResult then 1
         else 0⟩ :=
  C3_always_true_exit_single_attempt 1000 wFlow wFlowPend
    (.ok pendingResult) pendingResult [] (by decide) (by rfl)

/-- Claim C4 is contradicted by the code: on a premature attempt the module
evaluates `warnings.warn(...)`, but `oauth2cli/aio/oauth2.py` never imports
`warnings`, so the attempt raises `NameError` instead of warning and
proceeding.  Here the descriptor's `latest_attempt_at + interval - 1 = 104`
exceeds the current time 100, and the attempt fails. -/
theorem C4_premature_attempt_raises :
    _obtain_token_by_device_flow 100 prematureFlow (.ok pendingResult) =
      .error (.nameError "warnings") := rfl

/-- Claim C5 as stated is false: when the provider gives `interval` as text,
`int(flow.get("interval", 5))` converts the text to its numeric value rather
than falling back to 5.  A response with `interval` given as the text "7"
yields a descriptor whose interval is 7, not 5. -/
theorem C5_counterexample :
    ((initiate_device_flow deviceConfig 1000 textIntervalResponse).1.toOption.map
        Flow.interval = some (some 7)) ∧
    some (7 : Int) ≠ some (5 : Int) :=
  ⟨by decide, by decide⟩

/-- Claim C5 (amended): the returned descriptor's `interval` is the `int`
conversion of the provider's value — 5 exactly when the provider omits it,
and the numeric value of the text when the provider gives it as text (a
non-numeric text raises `ValueError` instead) — `expires_in` likewise
defaults to 1800 when omitted, and `expires_at` equals the call-time plus
`expires_in`, computed locally and never taken from the provider (any
provider-supplied `expires_at` in `resp` is overwritten). -/
theorem C5_initiate_normalization (cfg : Config) (now : Int)
    (resp : DeviceAuthResponse) (flow : Flow)
    (h : (initiate_device_flow cfg now resp).1 = .ok flow) :
    flow.interval = (pyInt (resp.interval.getD (.num 5))).toOption ∧
    (resp.interval = none → flow.interval = some 5) ∧
    flow.expires_in = (pyInt (resp.expires_in.getD (.num 1800))).toOption ∧
    (resp.expires_in = none → flow.expires_in = some 1800) ∧
    flow.expires_at = flow.expires_in.map (fun ei => now + ei) ∧
    flow.latest_attempt_at = none := by
  obtain ⟨i, ei, hpi, hpe, hf⟩ := initiate_ok_elim h
  subst hf
  refine ⟨?_, ?_, ?_, ?_, ?_, rfl⟩
  · rw [hpi]; rfl
  · intro hn
    rw [hn] at hpi
    simp [pyInt] at hpi
    simp [hpi]
  · rw [hpe]; rfl
  · intro hn
    rw [hn] at hpe
    simp [pyInt] at hpe
    simp [hpe]
  · rfl

theorem C5_initiate_normalization_witness :
    wFlow.interval = some 5 ∧ wFlow.expires_in = some 1800 ∧
    wFlow.expires_at = wFlow.expires_in.map (fun ei => (500 : Int) + ei) :=
  have h := C5_initiate_normalization deviceConfig 500 omittedResponse wFlow
    (by rfl)
  ⟨h.2.1 rfl, h.2.2.2.1 rfl, h.2.2.2.2.1⟩

/-- Claim C6: both configuration errors fail immediately and before any
network activity: `initiate_device_flow` raises a `ValueError` with zero
HTTP posts when the device-authorization endpoint is absent (or falsy), and
`obtain_token_by_device_flow` raises a `ValueError` with zero poll attempts,
zero sleeps and zero exit-condition checks when no sleeper is supplied. -/
theorem C6_configuration_errors_fail_fast :
    (∀ (cfg : Config) (now : Int) (resp : DeviceAuthResponse),
      pyTruthyStrOpt cfg.device_authorization_endpoint = false →
      initiate_device_flow cfg now resp =
        (.error (.valueError
          "You need to provide device authorization endpoint"), 0)) ∧
    (∀ (retriable : List String) (ec : Nat → Flow → Bool)
        (attempts : List (Int × Except PyError TokenResult)) (flow : Flow),
      obtain_token_by_device_flow false retriable ec attempts flow =
        .raised (.valueError
          "You need to provide something like asyncio.sleep") flow
          ⟨0, 0, 0⟩) := by
  constructor
  · intro cfg now resp h
    unfold initiate_device_flow
    rw [h]
    simp
  · intro retriable ec attempts flow
    rfl

theorem C6_configuration_errors_fail_fast_witness :
    initiate_device_flow noDaeConfig 500 omittedResponse =
      (.error (.valueError
        "You need to provide device authorization endpoint"), 0) ∧
    obtain_token_by_device_flow false DEVICE_FLOW_RETRIABLE_ERRORS
        (fun _ _ => true) [] wFlow =
      .raised (.valueError
        "You need to provide something like asyncio.sleep") wFlow
        ⟨0, 0, 0⟩ :=
  ⟨C6_configuration_errors_fail_fast.1 noDaeConfig 500 omittedResponse rfl,
   C6_configuration_errors_fail_fast.2 DEVICE_FLOW_RETRIABLE_ERRORS
     (fun _ _ => true) [] wFlow⟩

/-- Claim C7: the token pipeline raises a transport-level fault exactly when
the response status code is at least 500; any status below 500 (including
non-2xx codes) hands the body to the response interpreter and returns its
normalized result, success or OAuth2 error alike. -/
theorem C7_transport_fault_iff_5xx
    (parse : String → Except String TokenResult) (resp : HttpResponse) :
    (_obtain_token parse resp = .error (.httpError resp.status_code) ↔
      500 ≤ resp.status_code) ∧
    (resp.status_code < 500 →
      _obtain_token parse resp =
        (parse resp.text).mapError PyError.parseError) := by
  unfold _obtain_token
  by_cases h : 500 ≤ resp.status_code
  · rw [if_pos h]
    exact ⟨⟨fun _ => h, fun _ => rfl⟩, fun hlt => absurd h (by omega)⟩
  · rw [if_neg h]
    refine ⟨⟨fun heq => ?_, fun hge => absurd hge h⟩, fun _ => rfl⟩
    cases hp : parse resp.text with
    | ok r => rw [hp] at heq; exact absurd heq (by simp [Except.mapError])
    | error s => rw [hp] at heq; simp [Except.mapError] at heq

theorem C7_transport_fault_iff_5xx_witness :
    (_obtain_token wParse ⟨503, "busy"⟩ = .error (.httpError 503) ↔
      500 ≤ 503) ∧
    _obtain_token wParse ⟨200, "body"⟩ =
      (wParse "body").mapError PyError.parseError :=
  ⟨(C7_transport_fault_iff_5xx wParse ⟨503, "busy"⟩).1,
   (C7_transport_fault_iff_5xx wParse ⟨200, "body"⟩).2 (by decide)⟩

/-- Claim C8: `expires_at` is written exactly once, at descriptor creation
inside `initiate_device_flow` (as call-time plus `expires_in`), and neither
a poll attempt nor any run of the polling loop mutates any descriptor field
other than `interval` and `latest_attempt_at` (`sameStatic` lists the
remaining fields). -/
theorem C8_expires_at_write_once :
    (∀ (cfg : Config) (now : Int) (resp : DeviceAuthResponse) (flow : Flow),
      (initiate_device_flow cfg now resp).1 = .ok flow →
      flow.expires_at = flow.expires_in.map (fun ei => now + ei)) ∧
    (∀ (now : Int) (flow : Flow) (tr : Except PyError TokenResult)
        (result : TokenResult) (flow' : Flow),
      _obtain_token_by_device_flow now flow tr = .ok (result, flow') →
      sameStatic flow' flow) ∧
    (∀ (retriable : List String) (ec : Nat → Flow → Bool)
        (attempts : List (Int × Except PyError TokenResult)) (flow : Flow)
        (st : PollStats),
      sameStatic (pollLoop retriable ec attempts flow st).flowOf flow) := by
  refine ⟨?_, ?_, ?_⟩
  · intro cfg now resp flow h
    obtain ⟨i, ei, -, -, hf⟩ := initiate_ok_elim h
    subst hf
    rfl
  · intro now flow tr result flow' h
    exact attempt_ok_sameStatic h
  · intro retriable ec attempts flow st
    exact pollLoop_sameStatic retriable ec attempts flow st

theorem C8_expires_at_write_once_witness :
    wFlow.expires_at = wFlow.expires_in.map (fun ei => (500 : Int) + ei) ∧
    sameStatic wFlowSlow wFlow ∧
    sameStatic (pollLoop DEVICE_FLOW_RETRIABLE_ERRORS (fun _ _ => true)
        [(1000, .ok pendingResult)] wFlow ⟨0, 0, 0⟩).flowOf wFlow :=
  ⟨C8_expires_at_write_once.1 deviceConfig 500 omittedResponse wFlow (by rfl),
   C8_expires_at_write_once.2.1 1000 wFlow (.ok slowDownResult)
     slowDownResult wFlowSlow (by rfl),
   C8_expires_at_write_once.2.2 DEVICE_FLOW_RETRIABLE_ERRORS
     (fun _ _ => true) [(1000, .ok pendingResult)] wFlow ⟨0, 0, 0⟩⟩

/-- Claim C9 is contradicted by the code: for every refresh token the very
first statement of `obtain_token_by_refresh_token`,
`assert isinstance(refresh_token, string_types)`, evaluates the global name
`string_types`, which `oauth2cli/aio/oauth2.py` never imports or defines, so
the call raises `NameError` before building the body and performs zero HTTP
round trips, instead of one round trip returning the pipeline's result. -/
theorem C9_refresh_token_raises_name_error
    (parse : String → Except String TokenResult) (resp : HttpResponse)
    (refresh_token : String) (scope : Option String)
    (data : List (String × String)) :
    obtain_token_by_refresh_token parse resp refresh_token scope data =
      (.error (.nameError "string_types"), 0) := by
  have h : resolveName "string_types" = false := by decide
  unfold obtain_token_by_refresh_token
  rw [h]
  simp

/-- Claim C10: when the descriptor's `interval` field is zero or negative at
the start of the wait phase, `range(interval)` is empty, so the wait phase
performs zero sleeper calls and zero exit-condition evaluations and the loop
proceeds directly to the next poll attempt — the stats carried into the tail
of the loop change only by the one attempt counted. -/
theorem C10_nonpositive_interval_skips_wait (ec : Nat → Flow → Bool)
    (now : Int) (flow flow' : Flow) (tr : Except PyError TokenResult)
    (result : TokenResult) (iv : Int)
    (rest : List (Int × Except PyError TokenResult)) (st : PollStats)
    (hat : _obtain_token_by_device_flow now flow tr = .ok (result, flow'))
    (hret : resultRetriable DEVICE_FLOW_RETRIABLE_ERRORS result = true)
    (hiv : flow'.interval = some iv) (hnp : iv ≤ 0) :
    pollLoop DEVICE_FLOW_RETRIABLE_ERRORS ec ((now, tr) :: rest) flow st =
      pollLoop DEVICE_FLOW_RETRIABLE_ERRORS ec rest flow'
        { st with attempts := st.attempts + 1 } := by
  have hz : (flow'.interval.getD 5).toNat = 0 := by
    rw [hiv]
    simp
    omega
  rw [pollLoop_head_wait _ ec now tr rest flow st result flow' hat hret
    (fun j hj => absurd (hz ▸ hj) (Nat.not_lt_zero j))]
  rw [hz]
  simp

theorem C10_nonpositive_interval_skips_wait_witness :
    pollLoop DEVICE_FLOW_RETRIABLE_ERRORS (fun _ _ => false)
        [(1000, .ok pendingResult)] zeroIntervalFlow ⟨0, 0, 0⟩ =
      pollLoop DEVICE_FLOW_RETRIABLE_ERRORS (fun _ _ => false) []
        zeroIntervalFlowPend ⟨1, 0, 0⟩ :=
  C10_nonpositive_interval_skips_wait (fun _ _ => false) 1000
    zeroIntervalFlow zeroIntervalFlowPend (.ok pendingResult) pendingResult 0
    [] ⟨0, 0, 0⟩ (by rfl) (by decide) (by rfl) (by decide)

end OAuth2Cli
